import Mathlib

/-!
Verification development for the medbot backend (Flask app `medbot_app.py` and
the OAuth helper `get_oauth2_access_token_server.py`).

The Python code is shallowly embedded: Python values that flow through the
JSON/HTTP layer are modelled by the inductive `PyVal`; the external
collaborators (OpenAI chat completions, the embedding service, the scispaCy
entity recognizer) are modelled by an `Oracle` of pure functions; the faiss
`IndexFlatL2` behaviour is modelled over integer vectors (no claim below
depends on floating-point rounding, only on counts, ordering and indexing).
Fallible Python code (exceptions) is modelled with `Except`.
-/

/-- A Python value as it appears in the JSON request/response layer:
`None`, strings, integers, lists and string-keyed dicts. -/
inductive PyVal where
  | none : PyVal
  | str : String → PyVal
  | int : Int → PyVal
  | list : List PyVal → PyVal
  | dict : List (String × PyVal) → PyVal

mutual

/-- Python `repr` of a value, approximated (quotes are not re-escaped).
Reached only when an f-string interpolates a non-scalar value. -/
def pyRepr : PyVal → String
  | PyVal.none => "None"
  | PyVal.str s => "\x27" ++ s ++ "\x27"
  | PyVal.int n => toString n
  | PyVal.list xs => "[" ++ pyReprListBody xs ++ "]"
  | PyVal.dict kvs => "\x7b" ++ pyReprDictBody kvs ++ "\x7d"

/-- Comma-separated `repr`s of list elements. -/
def pyReprListBody : List PyVal → String
  | [] => ""
  | [x] => pyRepr x
  | x :: xs => pyRepr x ++ ", " ++ pyReprListBody xs

/-- Comma-separated `repr`s of dict entries. -/
def pyReprDictBody : List (String × PyVal) → String
  | [] => ""
  | [(k, v)] => "\x27" ++ k ++ "\x27: " ++ pyRepr v
  | (k, v) :: kvs => "\x27" ++ k ++ "\x27: " ++ pyRepr v ++ ", " ++ pyReprDictBody kvs

end

/-- Python `str()` as used by f-string interpolation: a string interpolates
as itself, `None` as `"None"`, an int in decimal, containers via `repr`. -/
def pyFormat : PyVal → String
  | PyVal.none => "None"
  | PyVal.str s => s
  | PyVal.int n => toString n
  | v => pyRepr v

/-- Python `str.strip()` with no argument: drop leading and trailing
whitespace (modelled with `Char.isWhitespace`). -/
def pyStrip (s : String) : String :=
  String.mk (((s.data.dropWhile Char.isWhitespace).reverse.dropWhile
    Char.isWhitespace).reverse)

/-- Python `str.lower()`, character by character. -/
def pyLower (s : String) : String :=
  String.mk (s.data.map Char.toLower)

/-- Python subscript `v[key]` with a string key: dict lookup (KeyError when the
key is absent), TypeError on every non-dict value. -/
def pyGetItem : PyVal → String → Except String PyVal
  | PyVal.dict kvs, k =>
      match kvs.lookup k with
      | some v => Except.ok v
      | Option.none => Except.error "KeyError"
  | _, _ => Except.error "TypeError"

/-- Python list subscript `xs[i]` with an `int` index: negative indices wrap
from the end, and an index that is still out of range raises IndexError. -/
def pyIndex {α : Type} (xs : List α) (i : Int) : Except String α :=
  let j : Int := if i < 0 then (xs.length : Int) + i else i
  if h : 0 ≤ j ∧ j.toNat < xs.length then Except.ok (xs.get ⟨j.toNat, h.2⟩)
  else Except.error "IndexError"

/-- External collaborators of `medbot_app.py`, modelled as pure functions:
`complete0` is a temperature-0 single-user-message chat completion keyed by the
prompt text (used by both translation helpers); `gpt` is `call_gpt4`, the
temperature-0.4 completion over the full conversation; `ents` returns the
entity surface texts scispaCy finds in a text; `embed` is the remote
text-embedding capability (vector components abstracted to integers). -/
structure Oracle where
  complete0 : String → String
  gpt : List PyVal → String
  ents : String → List String
  embed : String → List Int

/-- The module-level text of `SYSTEM_PROMPT_BASE` in `medbot_app.py`. -/
def SYSTEM_PROMPT_BASE : String :=
  "\nYou are a medical assistant helping a general practitioner (GP) by conducting a structured pre-consultation with a patient.\nYour goal is to ask appropriate questions to gather all relevant medical details about the patient\x27s symptoms, history, medications, and other concerns.\nAsk one clear, natural question at a time. Use layman\x27s terms when possible.\n\nOnce enough information is gathered, stop asking questions and say: \"Thank you. I will now summarize your information for the doctor.\"\n\nAfter that, output a structured summary in this JSON format:\n\n\x7b\n  \"chief_complaint\": \"...\",\n  \"symptom_details\": \x7b\n    \"onset\": \"...\",\n    \"duration\": \"...\",\n    \"severity\": \"...\",\n    \"location\": \"...\",\n    \"associated_symptoms\": [...]\n  \x7d,\n  \"past_medical_history\": [...],\n  \"medications\": [...],\n  \"allergies\": [...],\n  \"review_of_systems\": \x7b\n    ...\n  \x7d\n\x7d\n"

/-- `build_prompt(symptom_context="", patient_medical_history="")`: appends the
optional history and guideline sections to the base prompt; a section is
omitted exactly when its argument is falsy (the empty string). -/
def build_prompt (symptom_context : String) (patient_medical_history : String) : String :=
  let prompt := SYSTEM_PROMPT_BASE
  let prompt :=
    if patient_medical_history ≠ "" then
      prompt ++ "\n\nPatient\x27s medical history:\n" ++ patient_medical_history
    else prompt
  if symptom_context ≠ "" then
    prompt ++ "\n\nUse the following medical guidelines to inform your questioning:\n" ++
      symptom_context
  else prompt

/-- `translate_slovak_to_english`: a temperature-0 completion on the fixed
instruction template (the argument is interpolated by an f-string, hence
`pyFormat`), with the reply stripped. -/
def translate_slovak_to_english (o : Oracle) (text_sk : PyVal) : String :=
  pyStrip (o.complete0 ("Translate the following Slovak text to English:\n\n" ++ pyFormat text_sk))

/-- `translate_english_to_slovak`: the reverse translation template. -/
def translate_english_to_slovak (o : Oracle) (text_en : String) : String :=
  pyStrip (o.complete0 ("Translate the following English text to Slovak:\n\n" ++ text_en))

/-- `extract_medical_keywords`: the set of lower-cased entity surface texts, as
a duplicate-free list (CPython set order is unspecified; first occurrence order
is fixed here). -/
def extract_medical_keywords (o : Oracle) (text_en : String) : List String :=
  ((o.ents text_en).map (fun s => pyLower s)).dedup

/-- `call_gpt4`: the chat completion on the full conversation. -/
def call_gpt4 (o : Oracle) (conversation : List PyVal) : String :=
  o.gpt conversation

/-- `embed_text`: rejects empty/whitespace-only input with a ValueError and
otherwise embeds the stripped text. (The `isinstance` check of the source is
subsumed by the `String` type of the argument.) -/
def embed_text (o : Oracle) (text : String) : Except String (List Int) :=
  let t := pyStrip text
  if t = "" then Except.error "[embed_text] Cannot embed empty string."
  else Except.ok (o.embed t)

/-- One stored guideline chunk of the `metadata` list. -/
structure Chunk where
  text : String
  source : String


/-- The process-lifetime state built by `initialize`: the faiss index contents
(one vector per chunk, in insertion order) and the parallel `metadata` list. -/
structure ServerState where
  vectors : List (List Int)
  metadata : List Chunk

/-- Squared Euclidean distance between a query and a stored vector. -/
def sqDist (q v : List Int) : Int :=
  ((q.zip v).map (fun p => (p.1 - p.2) * (p.1 - p.2))).sum

/-- Ranking used by the flat index: smaller distance first, ties by position. -/
def rankLE (vecs : List (List Int)) (q : List Int) (i j : Nat) : Bool :=
  let di := sqDist q (vecs.getD i [])
  let dj := sqDist q (vecs.getD j [])
  decide (di < dj ∨ (di = dj ∧ i ≤ j))

/-- Insertion step of an insertion sort by a boolean order. -/
def insertBy (le : Nat → Nat → Bool) (x : Nat) : List Nat → List Nat
  | [] => [x]
  | y :: ys => if le x y then x :: y :: ys else y :: insertBy le x ys

/-- Insertion sort by a boolean order. -/
def sortBy (le : Nat → Nat → Bool) : List Nat → List Nat
  | [] => []
  | x :: xs => insertBy le x (sortBy le xs)

/-- Model of `faiss.IndexFlatL2.search` label output for one query: the indices
of the `min k ntotal` nearest stored vectors, nearest first, followed by the
faiss padding label `-1` for each of the remaining `k - ntotal` result slots
when `k` exceeds the stored count. -/
def faissSearch (vecs : List (List Int)) (q : List Int) (k : Nat) : List Int :=
  let n := vecs.length
  let ranked := sortBy (rankLE vecs q) (List.range n)
  ((ranked.take (min k n)).map (fun i => (i : Int))) ++ List.replicate (k - min k n) (-1)

/-- `retrieve_relevant_chunks(query, top_k)`: embed the query, search the
index, and read `metadata[i]["text"]` for every returned label `i` (Python
list indexing, so the faiss padding label `-1` reads the last metadata entry). -/
def retrieve_relevant_chunks (st : ServerState) (o : Oracle) (query : String)
    (top_k : Nat) : Except String (List String) := do
  let query_embedding ← embed_text o query
  let labels := faissSearch st.vectors query_embedding top_k
  labels.mapM (fun i => (pyIndex st.metadata i).map (fun c => c.text))

/-- The message dict `\x7b"role": "system", "content": p\x7d`. -/
def systemMessage (p : String) : PyVal :=
  PyVal.dict [("role", PyVal.str "system"), ("content", PyVal.str p)]

/-- The message dict `\x7b"role": "user", "content": v\x7d` appended by `chat`
(`v` is the raw request `input` value). -/
def userMessage (v : PyVal) : PyVal :=
  PyVal.dict [("role", PyVal.str "user"), ("content", v)]

/-- The assistant message appended by `chat`, with the English reply as
`content` and the Slovak localization as `content_sk`. -/
def assistantMessage (en sk : String) : PyVal :=
  PyVal.dict [("role", PyVal.str "assistant"), ("content", PyVal.str en),
    ("content_sk", PyVal.str sk)]

/-- Python equality of a value against the string literal `"system"`: true for
exactly the equal string, false for every other value (no exception). -/
def pyEqSystem : PyVal → Bool
  | PyVal.str s => s = "system"
  | _ => false

/-- Whether a message value carries `role = "system"`. -/
def isSystem (m : PyVal) : Bool :=
  match pyGetItem m "role" with
  | Except.ok r => pyEqSystem r
  | Except.error _ => false

/-- The comprehension `[msg for msg in conversation if msg["role"] != "system"]`:
evaluates `msg["role"]` on every element (so a single malformed element raises)
and keeps the elements whose role is not `"system"`. -/
def filterNonSystem : List PyVal → Except String (List PyVal)
  | [] => Except.ok []
  | m :: rest =>
    match pyGetItem m "role" with
    | Except.error e => Except.error e
    | Except.ok r =>
      match filterNonSystem rest with
      | Except.error e => Except.error e
      | Except.ok tail =>
        if pyEqSystem r then Except.ok tail else Except.ok (m :: tail)

/-- One POST /chat request body: each field is absent or carries a value. -/
structure ChatRequest where
  input : Option PyVal
  conversation : Option PyVal

/-- Outcome of the `chat` route: a JSON conversation with HTTP 200, the 400
error response, or an uncaught exception surfacing as a server error. -/
inductive ChatResult where
  | ok : List PyVal → ChatResult
  | badRequest : String → ChatResult
  | serverError : ChatResult


/-- The translated input computed at the top of `chat`:
`translate_slovak_to_english(data.get("input"))`. -/
def translatedInputOf (o : Oracle) (req : ChatRequest) : String :=
  translate_slovak_to_english o (req.input.getD PyVal.none)

/-- The guideline context of a `chat` turn: retrieval is skipped when the
keyword list is empty, otherwise the keywords joined by `", "` are the query
of a top-3 search and the retrieved texts are joined by blank lines. -/
def guidelineContextOf (st : ServerState) (o : Oracle) (keywords : List String) :
    Except String String :=
  if keywords.length > 0 then
    (retrieve_relevant_chunks st o (String.intercalate ", " keywords) 3).map
      (fun chunks => String.intercalate "\n\n" chunks)
  else Except.ok ""

/-- The POST /chat handler of `medbot_app.py`. -/
def chat (st : ServerState) (o : Oracle) (req : ChatRequest) : ChatResult :=
  if translatedInputOf o req = "" then ChatResult.badRequest "Invalid input."
  else
    match guidelineContextOf st o
        (extract_medical_keywords o (translatedInputOf o req)) with
    | Except.error _ => ChatResult.serverError
    | Except.ok guideline_context =>
      match req.conversation.getD (PyVal.list []) with
      | PyVal.list msgs =>
        match filterNonSystem msgs with
        | Except.error _ => ChatResult.serverError
        | Except.ok kept =>
          let conv2 := systemMessage (build_prompt guideline_context "") :: kept ++
            [userMessage (req.input.getD PyVal.none)]
          let assistant_reply := call_gpt4 o conv2
          ChatResult.ok (conv2 ++
            [assistantMessage assistant_reply
              (translate_english_to_slovak o assistant_reply)])
      | _ => ChatResult.serverError

/-- `get_time_based_greeting`, with the current hour passed explicitly. -/
def get_time_based_greeting (hour : Nat) : String :=
  if hour < 12 then "Dobré ráno"
  else if hour < 18 then "Dobrý deň"
  else "Dobrý večer"

/-- `generate_greeting(patient_name, returning)`: the name part is included
only when the name is truthy (present and non-empty). -/
def generate_greeting (hour : Nat) (patient_name : Option String) (returning : Bool) :
    String :=
  let greeting := get_time_based_greeting hour
  let name_part :=
    match patient_name with
    | some n => if n = "" then "" else ", " ++ n
    | Option.none => ""
  let intro := if returning then "Vitajte späť" else "Som váš virtuálny zdravotný asistent"
  greeting ++ name_part ++ ". " ++ intro ++
    ". Ako sa dnes cítite? Môžete mi opísať svoje zdravotné ťažkosti?"

/-- The patient record as far as `start_consultation` reads it. -/
structure PatientData where
  firstName : Option String

/-- The GET /start-consultation handler: `none` models a falsy
`fetch_patient_medical_history` result (error 500); otherwise the response is
the greeting and a one-element conversation holding the assistant greeting. -/
def start_consultation (hour : Nat) (fetched : Option PatientData) :
    Except String (String × List PyVal) :=
  match fetched with
  | Option.none => Except.error "Unable to fetch patient data."
  | some pd =>
    let greeting := generate_greeting hour pd.firstName true
    Except.ok (greeting,
      [PyVal.dict [("role", PyVal.str "assistant"), ("content", PyVal.str greeting),
        ("content_sk", PyVal.str greeting)]])

/-- Prepend a character to the first part of a split result. -/
def consHead (c : Char) : List (List Char) → List (List Char)
  | [] => [[c]]
  | g :: gs => (c :: g) :: gs

/-- Left-to-right scan of Python `text.split(". ")` over the character list:
the leftmost occurrence of the two-character separator closes the current
part, exactly as `str.split` with a multi-character separator does. -/
def splitChars : List Char → List (List Char)
  | [] => [[]]
  | [c] => [[c]]
  | c1 :: c2 :: rest =>
    if c1 = '.' ∧ c2 = ' ' then [] :: splitChars rest
    else consHead c1 (splitChars (c2 :: rest))

/-- `text.split(". ")` at the `String` level. -/
def pySplitDotSpace (s : String) : List String :=
  (splitChars s.data).map (fun cs => String.mk cs)

/-- The sentence-accumulation loop of `initialize`: `cur` is `current_chunk`;
a sentence whose addition reaches the 500-token budget closes the buffer (the
closed buffer is stripped), and the final buffer is always flushed. `tokLen`
abstracts `len(enc.encode(·))` of the cl100k_base tokenizer. -/
def chunkAux (tokLen : String → Nat) (cur : String) : List String → List String
  | [] => [pyStrip cur]
  | s :: rest =>
    if tokLen (cur ++ s) < 500 then chunkAux tokLen (cur ++ (s ++ ". ")) rest
    else pyStrip cur :: chunkAux tokLen (s ++ ". ") rest

/-- The Guideline Chunker of `initialize`: split the scraped text on `". "`,
accumulate sentences under the token budget, flush the final buffer. -/
def chunkText (tokLen : String → Nat) (text : String) : List String :=
  chunkAux tokLen "" (pySplitDotSpace text)

/-- The buffer contents after accumulating the sentences of `g` in order:
each accumulated sentence is followed by `". "`, as `current_chunk` builds it. -/
def renderBuf : List String → String
  | [] => ""
  | s :: rest => (s ++ ". ") ++ renderBuf rest

/-- The sentence list rendered back with the `". "` separator between
sentences: the inverse reading of `pySplitDotSpace`. -/
def joinDots : List String → String
  | [] => ""
  | [s] => s
  | s :: s2 :: rest => s ++ ". " ++ joinDots (s2 :: rest)

/-- Character-level variant of `joinDots`. -/
def joinChars : List (List Char) → List Char
  | [] => []
  | [g] => g
  | g :: g2 :: gs => g ++ '.' :: ' ' :: joinChars (g2 :: gs)

/-- What follows the first sentence of a group inside a joined sentence list:
nothing when the group was last, otherwise the separator and the rest. -/
def dotTail : List String → String
  | [] => ""
  | r :: rs => ". " ++ joinDots (r :: rs)

/-- The embedding pass of `initialize`:
`[embed_text(client, chunk) for chunk in chunks]`, which raises at the first
chunk `embed_text` rejects. -/
def embedAllChunks (o : Oracle) (chunks : List String) : Except String (List (List Int)) :=
  chunks.mapM (fun chunk => embed_text o chunk)

/-- Oracle fixture for the C4 scenario: the Slovak→English translation of the
sample patient sentence is an English sentence, every other completion is
`"ok"`, no entities, and a constant GPT reply. -/
def c4oracle : Oracle where
  complete0 := fun p =>
    if p = "Translate the following Slovak text to English:\n\nBolí ma hlava" then
      "I have a headache"
    else "ok"
  gpt := fun _ => "reply"
  ents := fun _ => []
  embed := fun _ => []

/-- Oracle fixture for scenarios that need no retrieval: a fixed non-empty
translation, a fixed reply, no entities. -/
def plainOracle : Oracle where
  complete0 := fun _ => "hello"
  gpt := fun _ => "reply"
  ents := fun _ => []
  embed := fun _ => []

/-- Token JSON returned by the Google token endpoint, as `save_tokens` reads
it; a `none` field is a key absent from the response body. -/
structure Tokens where
  id_token : Option String
  access_token : Option String
  refresh_token : Option String

/-- `dotenv.set_key`: update the key in place when present, else append. -/
def set_key (env : List (String × String)) (k v : String) : List (String × String) :=
  if env.any (fun p => p.1 = k) then
    env.map (fun p => if p.1 = k then (k, v) else p)
  else env ++ [(k, v)]

/-- `save_tokens`: write each of the three tokens under its key when truthy. -/
def save_tokens (env : List (String × String)) (tokens : Tokens) :
    List (String × String) :=
  let e1 :=
    match tokens.id_token with
    | some v => if v = "" then env else set_key env "GOOGLE_ID_TOKEN" v
    | Option.none => env
  let e2 :=
    match tokens.access_token with
    | some v => if v = "" then e1 else set_key e1 "GOOGLE_OAUTH2_ACCESS_TOKEN" v
    | Option.none => e1
  match tokens.refresh_token with
  | some v => if v = "" then e2 else set_key e2 "GOOGLE_OAUTH2_REFRESH_TOKEN" v
  | Option.none => e2

/-- Outcomes of the two token-endpoint POSTs the helper can make: a `none`
result models a non-200 reply (`refresh_tokens` / `exchange_code_for_tokens`
return `None`). The browser consent and redirect capture are abstracted: the
flow always eventually receives some authorization code. -/
structure OAuthOracle where
  refreshResult : Option Tokens
  exchangeResult : Option Tokens

/-- Observable outcome of running `main` of the OAuth helper: the final
environment-file contents, how many times the code exchange was attempted,
and whether the missing-credentials RuntimeError was raised. -/
structure FlowOutcome where
  env : List (String × String)
  exchangeCalls : Nat
  fatalError : Bool

/-- Python truthiness of an `os.getenv` result: absent or empty is falsy. -/
def envTruthy : Option String → Bool
  | some s => decide (s ≠ "")
  | Option.none => false

/-- `main` of `get_oauth2_access_token_server.py`: abort when client
credentials are missing; try the refresh flow when a refresh token is stored;
otherwise (or when the refresh fails) run the authorization-code flow and
exchange the received code once, saving tokens only on a 200 reply. -/
def oauth_main (env : List (String × String)) (o : OAuthOracle) : FlowOutcome :=
  if envTruthy (env.lookup "GOOGLE_CLIENT_ID") &&
      envTruthy (env.lookup "GOOGLE_CLIENT_SECRET") then
    let refresh_token := env.lookup "GOOGLE_OAUTH2_REFRESH_TOKEN"
    let tokens : Option Tokens :=
      if envTruthy refresh_token then o.refreshResult else Option.none
    match tokens with
    | some t => ⟨save_tokens env t, 0, false⟩
    | Option.none =>
      match o.exchangeResult with
      | Option.none => ⟨env, 1, false⟩
      | some t => ⟨save_tokens env t, 1, false⟩
  else ⟨env, 0, true⟩

/-! ### Helper lemmas about strings and the sentence split -/

theorem strMk_append (a b : List Char) :
    String.mk a ++ String.mk b = String.mk (a ++ b) := rfl

theorem strAppend_assoc (a b c : String) : a ++ b ++ c = a ++ (b ++ c) := by
  cases a with | mk la =>
  cases b with | mk lb =>
  cases c with | mk lc =>
  show String.mk ((la ++ lb) ++ lc) = String.mk (la ++ (lb ++ lc))
  rw [List.append_assoc]

theorem strAppend_empty (s : String) : s ++ "" = s := by
  cases s with | mk l =>
  show String.mk (l ++ []) = String.mk l
  rw [List.append_nil]

theorem strEmpty_append (s : String) : "" ++ s = s := rfl

theorem strMk_sep_append (a b : List Char) :
    String.mk a ++ ". " ++ String.mk b = String.mk (a ++ '.' :: ' ' :: b) := by
  show String.mk ((a ++ ['.', ' ']) ++ b) = String.mk (a ++ '.' :: ' ' :: b)
  rw [List.append_assoc]
  rfl

theorem splitChars_ne_nil : ∀ l : List Char, splitChars l ≠ []
  | [] => by simp [splitChars]
  | [c] => by simp [splitChars]
  | c1 :: c2 :: rest => by
      rw [splitChars]
      split
      · exact List.cons_ne_nil _ _
      · cases h : splitChars (c2 :: rest) with
        | nil => simp [consHead]
        | cons g gs => simp [consHead]

theorem joinChars_consHead (c : Char) :
    ∀ L : List (List Char), L ≠ [] → joinChars (consHead c L) = c :: joinChars L
  | [], h => absurd rfl h
  | [g], _ => rfl
  | g :: g2 :: gs, _ => by
      show joinChars ((c :: g) :: g2 :: gs) = c :: joinChars (g :: g2 :: gs)
      rw [joinChars, joinChars, List.cons_append]

theorem joinChars_splitChars : ∀ l : List Char, joinChars (splitChars l) = l
  | [] => rfl
  | [c] => rfl
  | c1 :: c2 :: rest => by
      rw [splitChars]
      by_cases h : c1 = '.' ∧ c2 = ' '
      · rw [if_pos h]
        obtain ⟨h1, h2⟩ := h
        subst h1
        subst h2
        have ih := joinChars_splitChars rest
        have hne := splitChars_ne_nil rest
        cases hsp : splitChars rest with
        | nil => exact absurd hsp hne
        | cons g gs =>
            rw [hsp] at ih
            show joinChars ([] :: g :: gs) = '.' :: ' ' :: rest
            rw [joinChars, ih]
            rfl
      · rw [if_neg h]
        have ih := joinChars_splitChars (c2 :: rest)
        have hne := splitChars_ne_nil (c2 :: rest)
        rw [joinChars_consHead c1 _ hne, ih]

theorem joinDots_map_mk : ∀ gs : List (List Char),
    joinDots (gs.map (fun cs => String.mk cs)) = String.mk (joinChars gs)
  | [] => rfl
  | [g] => rfl
  | g :: g2 :: gs => by
      show String.mk g ++ ". " ++ joinDots ((g2 :: gs).map (fun cs => String.mk cs)) =
        String.mk (g ++ '.' :: ' ' :: joinChars (g2 :: gs))
      rw [joinDots_map_mk (g2 :: gs), strMk_sep_append]

theorem joinDots_pySplitDotSpace (s : String) : joinDots (pySplitDotSpace s) = s := by
  rw [pySplitDotSpace, joinDots_map_mk, joinChars_splitChars]

theorem renderBuf_snoc (g : List String) (s : String) :
    renderBuf (g ++ [s]) = renderBuf g ++ (s ++ ". ") := by
  induction g with
  | nil =>
      show (s ++ ". ") ++ renderBuf [] = "" ++ (s ++ ". ")
      rw [renderBuf, strAppend_empty, strEmpty_append]
  | cons a g ih =>
      show (a ++ ". ") ++ renderBuf (g ++ [s]) = ((a ++ ". ") ++ renderBuf g) ++ (s ++ ". ")
      rw [ih]
      simp [strAppend_assoc]

theorem joinDots_cons (s : String) (rest : List String) :
    joinDots (s :: rest) = s ++ dotTail rest := by
  cases rest with
  | nil => rw [joinDots, dotTail, strAppend_empty]
  | cons r rs => rw [joinDots, dotTail, strAppend_assoc]

theorem joinDots_group (s : String) (rest : List String) : ∀ g : List String,
    joinDots (g ++ s :: rest) = (renderBuf g ++ s) ++ dotTail rest := by
  intro g
  induction g with
  | nil =>
      rw [List.nil_append, joinDots_cons]
      rfl
  | cons a g ih =>
      show joinDots (a :: (g ++ s :: rest)) = (((a ++ ". ") ++ renderBuf g) ++ s) ++ dotTail rest
      rw [joinDots_cons]
      have hd : dotTail (g ++ s :: rest) = ". " ++ joinDots (g ++ s :: rest) := by
        cases g <;> rfl
      rw [hd, ih]
      rw [← strAppend_assoc, ← strAppend_assoc, ← strAppend_assoc]

theorem chunkAux_groups (tokLen : String → Nat) :
    ∀ (rest g : List String),
      ∃ groups : List (List String),
        chunkAux tokLen (renderBuf g) rest =
          groups.map (fun h => pyStrip (renderBuf h)) ∧
        groups.flatten = g ++ rest := by
  intro rest
  induction rest with
  | nil =>
      intro g
      exact ⟨[g], by simp [chunkAux], by simp⟩
  | cons s rest ih =>
      intro g
      by_cases h : tokLen (renderBuf g ++ s) < 500
      · obtain ⟨groups, h1, h2⟩ := ih (g ++ [s])
        refine ⟨groups, ?_, ?_⟩
        · rw [chunkAux, if_pos h, ← renderBuf_snoc, h1]
        · rw [h2, List.append_assoc, List.singleton_append]
      · obtain ⟨groups, h1, h2⟩ := ih [s]
        refine ⟨g :: groups, ?_, ?_⟩
        · rw [chunkAux, if_neg h, List.map, ← h1]
          have hr : renderBuf [s] = s ++ ". " := by
            rw [renderBuf, renderBuf, strAppend_empty]
          rw [hr]
        · rw [List.flatten_cons, h2, List.singleton_append]

theorem chunkAux_under_budget (tokLen : String → Nat)
    (hmono : ∀ a b : String, tokLen a ≤ tokLen (a ++ b)) :
    ∀ (rest g : List String),
      tokLen (joinDots (g ++ rest)) < 500 →
      (chunkAux tokLen (renderBuf g) rest).length = 1 := by
  intro rest
  induction rest with
  | nil =>
      intro g _
      rw [chunkAux]
      rfl
  | cons s rest ih =>
      intro g hbudget
      have hcheck : tokLen (renderBuf g ++ s) < 500 := by
        have hle := hmono (renderBuf g ++ s) (dotTail rest)
        rw [← joinDots_group s rest g] at hle
        exact Nat.lt_of_le_of_lt hle hbudget
      rw [chunkAux, if_pos hcheck, ← renderBuf_snoc]
      apply ih (g ++ [s])
      rw [List.append_assoc, List.singleton_append]
      exact hbudget

/-! ### Claim theorems: the Guideline Chunker (C6, C7, C10) -/

/-- C6: for every tokenizer and input text, the chunks emitted by the
Guideline Chunker are exactly the renderings (with the `". "` delimiter after
each sentence, then stripped) of a consecutive partition of the input's
sentence sequence: every sentence of `text.split(". ")` lands in exactly one
chunk, in the original order, none dropped or duplicated — and rejoining that
sentence sequence with the delimiter reproduces the original text. -/
theorem c6_chunker_preserves_sentences (tokLen : String → Nat) (text : String) :
    ∃ groups : List (List String),
      chunkText tokLen text = groups.map (fun g => pyStrip (renderBuf g)) ∧
      groups.flatten = pySplitDotSpace text ∧
      joinDots (pySplitDotSpace text) = text := by
  obtain ⟨groups, h1, h2⟩ := chunkAux_groups tokLen (pySplitDotSpace text) []
  exact ⟨groups, h1, by simpa using h2, joinDots_pySplitDotSpace text⟩

/-- C7: for every tokenizer that is monotone under appending (as a token
counter is intended to be) and every input text whose full tokenization is
under the 500-token budget, the Guideline Chunker emits exactly one chunk. -/
theorem c7_single_chunk_under_budget (tokLen : String → Nat) (text : String)
    (hmono : ∀ a b : String, tokLen a ≤ tokLen (a ++ b))
    (hbudget : tokLen text < 500) :
    (chunkText tokLen text).length = 1 := by
  rw [chunkText]
  apply chunkAux_under_budget tokLen hmono (pySplitDotSpace text) []
  rw [List.nil_append, joinDots_pySplitDotSpace]
  exact hbudget

/-- Witness for C7 at a concrete input: with the character-count tokenizer the
two-character text `"ab"` is one chunk. -/
theorem c7_single_chunk_under_budget_witness :
    (chunkText (fun s => s.data.length) "ab").length = 1 :=
  c7_single_chunk_under_budget (fun s => s.data.length) "ab"
    (fun a b => by
      cases a with | mk la =>
      cases b with | mk lb =>
      show la.length ≤ (la ++ lb).length
      simp)
    (by decide)

/-- C10: whenever the first sentence of the input already meets the 500-token
budget on its own, the empty initial buffer is flushed as the first chunk, so
the Chunker emits the empty string first; `initialize` then embeds every
emitted chunk, and `embed_text` rejects that empty chunk with its empty-string
ValueError. -/
theorem c10_empty_first_chunk_embed_error (tokLen : String → Nat) (text : String)
    (o : Oracle) (hbig : ¬ tokLen ((pySplitDotSpace text).headD "") < 500) :
    (chunkText tokLen text).head? = some "" ∧
    embedAllChunks o (chunkText tokLen text) =
      Except.error "[embed_text] Cannot embed empty string." := by
  rw [chunkText]
  cases hsp : pySplitDotSpace text with
  | nil => exact ⟨rfl, rfl⟩
  | cons s rest =>
      rw [hsp] at hbig
      simp only [List.headD_cons] at hbig
      rw [chunkAux, strEmpty_append, if_neg hbig]
      exact ⟨rfl, rfl⟩

/-- Witness for C10 at a concrete input: a tokenizer that counts every string
at 500 tokens or more forces the empty first chunk on the one-sentence text
`"a"`, and the embedding pass of initialization fails on it. -/
theorem c10_empty_first_chunk_embed_error_witness :
    (chunkText (fun s => 500 + s.data.length) "a").head? = some "" ∧
    embedAllChunks plainOracle (chunkText (fun s => 500 + s.data.length) "a") =
      Except.error "[embed_text] Cannot embed empty string." :=
  c10_empty_first_chunk_embed_error (fun s => 500 + s.data.length) "a" plainOracle
    (by decide)

/-! ### Helper lemmas about the /chat pipeline -/

theorem filterNonSystem_no_system :
    ∀ (msgs kept : List PyVal), filterNonSystem msgs = Except.ok kept →
      ∀ m ∈ kept, isSystem m = false
  | [], kept, h => by
      rw [filterNonSystem] at h
      cases h
      intro m hm
      simp at hm
  | msg :: rest, kept, h => by
      rw [filterNonSystem] at h
      split at h
      · exact absurd h (by simp)
      next r hr =>
        split at h
        · exact absurd h (by simp)
        next tail ht =>
          have htail := filterNonSystem_no_system rest tail ht
          split at h
          · cases h
            exact htail
          next hsys =>
            cases h
            intro m hm
            cases hm with
            | head =>
                have hrole : isSystem msg = pyEqSystem r := by
                  unfold isSystem
                  rw [hr]
                rw [hrole]
                simpa using hsys
            | tail _ hm2 => exact htail m hm2

theorem chat_ok_elim (st : ServerState) (o : Oracle) (req : ChatRequest)
    (conv : List PyVal) (h : chat st o req = ChatResult.ok conv) :
    ∃ gc msgs kept,
      translatedInputOf o req ≠ "" ∧
      req.conversation.getD (PyVal.list []) = PyVal.list msgs ∧
      filterNonSystem msgs = Except.ok kept ∧
      guidelineContextOf st o (extract_medical_keywords o (translatedInputOf o req)) =
        Except.ok gc ∧
      conv = (systemMessage (build_prompt gc "") :: kept ++
          [userMessage (req.input.getD PyVal.none)]) ++
        [assistantMessage
          (call_gpt4 o (systemMessage (build_prompt gc "") :: kept ++
            [userMessage (req.input.getD PyVal.none)]))
          (translate_english_to_slovak o
            (call_gpt4 o (systemMessage (build_prompt gc "") :: kept ++
              [userMessage (req.input.getD PyVal.none)])))] := by
  simp only [chat] at h
  split at h
  · exact absurd h (by simp)
  next hti =>
    split at h
    · exact absurd h (by simp)
    next gc hgc =>
      split at h
      next msgs hcv =>
        split at h
        · exact absurd h (by simp)
        next kept hfk =>
          cases h
          exact ⟨gc, msgs, kept, hti, hcv, hfk, hgc, rfl⟩
      next hnotlist => exact absurd h (by simp)

theorem isSystem_systemMessage (p : String) : isSystem (systemMessage p) = true := rfl

theorem isSystem_userMessage (v : PyVal) : isSystem (userMessage v) = false := rfl

theorem isSystem_assistantMessage (en sk : String) :
    isSystem (assistantMessage en sk) = false := rfl

/-! ### Claim theorems: the /chat transcript invariant (C3) -/

/-- C3: whatever conversation value the request carried (any number of system
messages at any positions), the conversation returned by a successful /chat
turn contains exactly one message with role `system`, and that message is the
first element. -/
theorem c3_single_system_message_first (st : ServerState) (o : Oracle)
    (req : ChatRequest) (conv : List PyVal)
    (h : chat st o req = ChatResult.ok conv) :
    conv.countP (fun m => isSystem m) = 1 ∧
    ∃ m, conv.head? = some m ∧ isSystem m = true := by
  obtain ⟨gc, msgs, kept, hti, hcv, hfk, hgc, hconv⟩ := chat_ok_elim st o req conv h
  have hkept := filterNonSystem_no_system msgs kept hfk
  subst hconv
  refine ⟨?_, systemMessage (build_prompt gc ""), rfl, rfl⟩
  have h0 : kept.countP (fun m => isSystem m) = 0 :=
    List.countP_eq_zero.mpr (by intro a ha; simp [hkept a ha])
  simp [List.countP_append, List.countP_cons, isSystem_systemMessage,
    isSystem_userMessage, isSystem_assistantMessage, h0]

/-- Witness for C3 at a concrete request: one turn over an empty transcript
yields a three-message conversation whose single system message is first. -/
theorem c3_single_system_message_first_witness :
    chat ⟨[], []⟩ plainOracle ⟨some (PyVal.str "hi"), some (PyVal.list [])⟩ =
      ChatResult.ok [systemMessage SYSTEM_PROMPT_BASE, userMessage (PyVal.str "hi"),
        assistantMessage "reply" "hello"] ∧
    (([systemMessage SYSTEM_PROMPT_BASE, userMessage (PyVal.str "hi"),
        assistantMessage "reply" "hello"] : List PyVal).countP (fun m => isSystem m) = 1 ∧
      ∃ m, ([systemMessage SYSTEM_PROMPT_BASE, userMessage (PyVal.str "hi"),
        assistantMessage "reply" "hello"] : List PyVal).head? = some m ∧
        isSystem m = true) :=
  ⟨rfl, c3_single_system_message_first ⟨[], []⟩ plainOracle
    ⟨some (PyVal.str "hi"), some (PyVal.list [])⟩ _ rfl⟩

theorem build_prompt_empty : build_prompt "" "" = SYSTEM_PROMPT_BASE := rfl

/-! ### Claim theorems: retrieval gating in /chat (C5) -/

/-- C5: on a successful /chat turn, when the extracted keyword set is empty
the system prompt is exactly the base prompt (retrieval skipped, no guideline
section); when it is non-empty, the keywords joined by `", "` are the query of
a top-3 retrieval, and the retrieved chunk texts joined by blank lines are
what `build_prompt` inserts into the system prompt placed at the head of the
conversation. -/
theorem c5_retrieval_gating (st : ServerState) (o : Oracle) (req : ChatRequest)
    (conv : List PyVal) (h : chat st o req = ChatResult.ok conv) :
    (extract_medical_keywords o (translatedInputOf o req) = [] →
      conv.head? = some (systemMessage SYSTEM_PROMPT_BASE)) ∧
    (extract_medical_keywords o (translatedInputOf o req) ≠ [] →
      ∃ chunks,
        retrieve_relevant_chunks st o
            (String.intercalate ", "
              (extract_medical_keywords o (translatedInputOf o req))) 3 =
          Except.ok chunks ∧
        conv.head? = some (systemMessage
          (build_prompt (String.intercalate "\n\n" chunks) ""))) := by
  obtain ⟨gc, msgs, kept, hti, hcv, hfk, hgc, hconv⟩ := chat_ok_elim st o req conv h
  subst hconv
  constructor
  · intro hkw
    rw [hkw, guidelineContextOf] at hgc
    simp at hgc
    rw [← hgc, build_prompt_empty]
    rfl
  · intro hkw
    have hlen : 0 < (extract_medical_keywords o (translatedInputOf o req)).length :=
      List.length_pos.mpr hkw
    rw [guidelineContextOf, if_pos hlen] at hgc
    cases hr : retrieve_relevant_chunks st o
        (String.intercalate ", "
          (extract_medical_keywords o (translatedInputOf o req))) 3 with
    | error e => rw [hr] at hgc; simp [Except.map] at hgc
    | ok chunks =>
        rw [hr] at hgc
        simp [Except.map] at hgc
        rw [← hgc]
        exact ⟨chunks, rfl, rfl⟩

/-- Witness for C5 at a concrete request with no extractable keywords: the
head of the returned conversation is the bare base prompt. -/
theorem c5_retrieval_gating_witness :
    ([systemMessage SYSTEM_PROMPT_BASE, userMessage (PyVal.str "hey"),
      assistantMessage "reply" "hello"] : List PyVal).head? =
      some (systemMessage SYSTEM_PROMPT_BASE) :=
  (c5_retrieval_gating ⟨[], []⟩ plainOracle
    ⟨some (PyVal.str "hey"), some (PyVal.list [])⟩ _ rfl).1 rfl

/-! ### Claim theorems: canonical transcript language (C4) -/

/-- C4 counterexample: a /chat turn whose Slovak input translates to a
different English sentence appends the user message with the original Slovak
text, not the English translation the claim requires. -/
theorem c4_user_message_keeps_original_text :
    chat ⟨[], []⟩ c4oracle ⟨some (PyVal.str "Bolí ma hlava"), some (PyVal.list [])⟩ =
      ChatResult.ok [systemMessage SYSTEM_PROMPT_BASE,
        userMessage (PyVal.str "Bolí ma hlava"), assistantMessage "reply" "ok"] ∧
    translate_slovak_to_english c4oracle (PyVal.str "Bolí ma hlava") =
      "I have a headache" ∧
    ("Bolí ma hlava" : String) ≠ "I have a headache" :=
  ⟨rfl, rfl, by decide⟩

/-- C4 amended: on a successful turn the input is translated to English only
for keyword extraction; the appended user message carries the original
(untranslated) request input, while the appended assistant message carries the
English reply as `content` with its Slovak localization only in the auxiliary
`content_sk` field. -/
theorem c4_transcript_languages_amended (st : ServerState) (o : Oracle)
    (req : ChatRequest) (conv : List PyVal)
    (h : chat st o req = ChatResult.ok conv) :
    ∃ p kept,
      conv = systemMessage p :: kept ++
        [userMessage (req.input.getD PyVal.none),
         assistantMessage
           (call_gpt4 o (systemMessage p :: kept ++
             [userMessage (req.input.getD PyVal.none)]))
           (translate_english_to_slovak o
             (call_gpt4 o (systemMessage p :: kept ++
               [userMessage (req.input.getD PyVal.none)])))] := by
  obtain ⟨gc, msgs, kept, hti, hcv, hfk, hgc, hconv⟩ := chat_ok_elim st o req conv h
  subst hconv
  refine ⟨build_prompt gc "", kept, ?_⟩
  simp [List.append_assoc]

/-- Witness for the amended C4 at the concrete headache request. -/
theorem c4_transcript_languages_amended_witness :
    ∃ p kept,
      ([systemMessage SYSTEM_PROMPT_BASE, userMessage (PyVal.str "Bolí ma hlava"),
        assistantMessage "reply" "ok"] : List PyVal) =
        systemMessage p :: kept ++
          [userMessage ((some (PyVal.str "Bolí ma hlava")).getD PyVal.none),
           assistantMessage
             (call_gpt4 c4oracle (systemMessage p :: kept ++
               [userMessage ((some (PyVal.str "Bolí ma hlava")).getD PyVal.none)]))
             (translate_english_to_slovak c4oracle
               (call_gpt4 c4oracle (systemMessage p :: kept ++
                 [userMessage ((some (PyVal.str "Bolí ma hlava")).getD PyVal.none)])))] :=
  c4_transcript_languages_amended ⟨[], []⟩ c4oracle
    ⟨some (PyVal.str "Bolí ma hlava"), some (PyVal.list [])⟩ _ rfl

/-! ### Claim theorems: /chat input validation (C1) -/

theorem chat_badRequest_elim (st : ServerState) (o : Oracle) (req : ChatRequest)
    (e : String) (h : chat st o req = ChatResult.badRequest e) :
    translatedInputOf o req = "" ∧ e = "Invalid input." := by
  simp only [chat] at h
  split at h
  next hti =>
    cases h
    exact ⟨hti, rfl⟩
  next hti =>
    split at h
    · exact absurd h (by simp)
    next gc hgc =>
      split at h
      next msgs hcv =>
        split at h
        · exact absurd h (by simp)
        next kept hfk => exact absurd h (by simp)
      next => exact absurd h (by simp)

/-- C1 counterexample: a request whose `conversation` is not a list (here the
integer 7) and whose input translates to non-empty text is not rejected with
the 400 error response — the handler raises an uncaught TypeError at the
transcript-filtering step, surfacing as a server error. -/
theorem c1_nonlist_conversation_not_rejected :
    chat ⟨[], []⟩ plainOracle ⟨some (PyVal.str "x"), some (PyVal.int 7)⟩ =
      ChatResult.serverError ∧
    chat ⟨[], []⟩ plainOracle ⟨some (PyVal.str "x"), some (PyVal.int 7)⟩ ≠
      ChatResult.badRequest "Invalid input." :=
  ⟨rfl, fun hcontra => ChatResult.noConfusion hcontra⟩

/-- C1 amended: the handler performs no upfront field validation — it first
translates the raw input (a chat-completion call) and returns the 400 response
exactly when the stripped translation is empty, whatever the conversation
field holds; when the translation is non-empty, a non-list `conversation` is
never answered with 400 but ends in an uncaught exception (server error). -/
theorem c1_chat_validation_amended (st : ServerState) (o : Oracle)
    (req : ChatRequest) :
    (chat st o req = ChatResult.badRequest "Invalid input." ↔
      translatedInputOf o req = "") ∧
    (translatedInputOf o req ≠ "" →
      (∀ xs, req.conversation.getD (PyVal.list []) ≠ PyVal.list xs) →
      chat st o req = ChatResult.serverError) := by
  constructor
  · constructor
    · intro h
      exact (chat_badRequest_elim st o req "Invalid input." h).1
    · intro hti
      simp only [chat]
      rw [if_pos hti]
  · intro hti hnl
    simp only [chat]
    rw [if_neg hti]
    split <;> rfl

/-- Witness for the amended C1: the concrete non-list-conversation request
ends in a server error. -/
theorem c1_chat_validation_amended_witness :
    chat ⟨[], []⟩ plainOracle ⟨some (PyVal.str "y"), some (PyVal.int 3)⟩ =
      ChatResult.serverError :=
  (c1_chat_validation_amended ⟨[], []⟩ plainOracle
    ⟨some (PyVal.str "y"), some (PyVal.int 3)⟩).2
    (by decide)
    (by intro xs hx; exact PyVal.noConfusion hx)

/-! ### Claim theorems: the Start operation (C2) -/

/-- C2 counterexample: starting a consultation yields a one-element
conversation (the assistant greeting) with no system message at all, not the
claimed two-element (system, assistant) transcript. -/
theorem c2_start_single_message :
    ((start_consultation 10 (some ⟨some "Ján"⟩)).map (fun r => r.2.length) =
      Except.ok 1) ∧
    ((start_consultation 10 (some ⟨some "Ján"⟩)).map
      (fun r => r.2.countP (fun m => isSystem m)) = Except.ok 0) :=
  ⟨rfl, rfl⟩

/-- C2 amended: for every fetched patient record the Start operation produces
a transcript of exactly one message: the assistant greeting, whose
`content_sk` equals its `content`; no system message is included. -/
theorem c2_start_transcript_amended (hour : Nat) (pd : PatientData) :
    ∃ g, start_consultation hour (some pd) =
      Except.ok (g, [PyVal.dict [("role", PyVal.str "assistant"),
        ("content", PyVal.str g), ("content_sk", PyVal.str g)]]) :=
  ⟨generate_greeting hour pd.firstName true, rfl⟩

/-! ### Claim theorems: retrieval with K above the stored count (C8) -/

/-- C8 (code bug): with a single stored chunk and `top_k = 3`, the faiss
search pads its label output with `-1`, and Python's negative indexing makes
`metadata[-1]` wrap to the last stored entry: the route returns three chunk
texts — more than the stored count, not pairwise distinct — instead of at
most the stored count with no wrapped access. -/
theorem c8_retrieval_overflow_wraps :
    retrieve_relevant_chunks ⟨[[0, 0]], [⟨"c0", "NICE chest pain"⟩]⟩
        ⟨fun _ => "", fun _ => "", fun _ => [], fun _ => [1, 1]⟩
        "chest pain" 3 = Except.ok ["c0", "c0", "c0"] ∧
    ¬ (["c0", "c0", "c0"] : List String).Nodup ∧
    ¬ ((["c0", "c0", "c0"] : List String).length ≤
        ([⟨"c0", "NICE chest pain"⟩] : List Chunk).length) :=
  ⟨rfl, by decide, by decide⟩

/-! ### Claim theorems: the OAuth helper (C9) -/

/-- C9: the OAuth helper attempts the code exchange at most once (no retry),
and in every run in which the exchange was attempted and failed (non-200
reply), the flow aborts with the environment file unchanged — no token keys
are written. -/
theorem c9_oauth_exchange_failure_no_write (env : List (String × String))
    (o : OAuthOracle) :
    (oauth_main env o).exchangeCalls ≤ 1 ∧
    (o.exchangeResult = Option.none → (oauth_main env o).exchangeCalls = 1 →
      (oauth_main env o).env = env) := by
  simp only [oauth_main]
  split
  · split
    · exact ⟨by simp, fun _ hc => absurd hc (by simp)⟩
    · split
      next hex => exact ⟨by simp, fun _ _ => rfl⟩
      next t hex =>
        refine ⟨by simp, fun hnone _ => ?_⟩
        rw [hnone] at hex
        exact absurd hex (by simp)
  · exact ⟨by simp, fun _ hc => absurd hc (by simp)⟩

/-- Witness for C9: with client credentials present, no stored refresh token
and a failing exchange, the environment file is returned unchanged. -/
theorem c9_oauth_exchange_failure_no_write_witness :
    (oauth_main [("GOOGLE_CLIENT_ID", "id"), ("GOOGLE_CLIENT_SECRET", "s")]
        ⟨Option.none, Option.none⟩).exchangeCalls ≤ 1 ∧
    (oauth_main [("GOOGLE_CLIENT_ID", "id"), ("GOOGLE_CLIENT_SECRET", "s")]
        ⟨Option.none, Option.none⟩).env =
      [("GOOGLE_CLIENT_ID", "id"), ("GOOGLE_CLIENT_SECRET", "s")] :=
  ⟨(c9_oauth_exchange_failure_no_write _ _).1,
   (c9_oauth_exchange_failure_no_write
      [("GOOGLE_CLIENT_ID", "id"), ("GOOGLE_CLIENT_SECRET", "s")]
      ⟨Option.none, Option.none⟩).2 rfl rfl⟩
